import Mathlib

/-!
Verification of the `ThreeCanvasComponent` scene logic
(`src/app/three-canvas/three-canvas.ts`).

The component's per-frame update loop, star-field generator, meteor
lifecycle manager, frame clock and resize handler are embedded below as
pure Lean functions over exact arithmetic (`ℝ` where the source uses
trigonometry, `ℚ`/generic ordered fields where the logic is purely
order/arithmetic based).  Randomness (`Math.random()`) is modelled by an
explicit stream of draws in `[0,1)` supplied as an argument.
-/

namespace ThreeCanvas

/-! ### Frame clock and pause controller

Embeds `togglePause` (three-canvas.ts lines 413-423) and the
`effectiveTime` computation at the top of `animate` (lines 289-294). -/

/-- Clock-related fields of the component state. -/
structure ClockState where
  startTime : ℝ
  pausedTime : ℝ
  paused : Bool
  lastFrameTimeMs : ℝ

/-- Embedding of `togglePause()`: flip `paused`; on entering pause capture
`pausedTime = (now - startTime) * 0.001`; on resume set
`startTime = now - pausedTime * 1000`. -/
def togglePause (now : ℝ) (s : ClockState) : ClockState :=
  let p := !s.paused
  if p then
    { s with paused := p
             pausedTime := (now - s.startTime) * 0.001
             lastFrameTimeMs := now }
  else
    { s with paused := p
             startTime := now - s.pausedTime * 1000
             lastFrameTimeMs := now }

/-- Embedding of the effective-time computation in `animate`:
`paused ? pausedTime : (now - startTime) * 0.001`. -/
def effectiveTime (now : ℝ) (s : ClockState) : ℝ :=
  if s.paused then s.pausedTime else (now - s.startTime) * 0.001

/-! ### Meteor fade (animate, lines 361-369) -/

/-- Opacity written to the `uOpacity` uniform of a meteor in the update
pass: `age = timeSec - birth`, `t = age / lifetime`,
`fade = 1 - min(1, t)`. -/
noncomputable def writtenOpacity (timeSec birth lifetime : ℝ) : ℝ :=
  let age := timeSec - birth
  let t := age / lifetime
  1 - min 1 t

/-! ### Per-frame star rotation (animate, lines 300-313) -/

/-- One star position update of the per-frame loop:
`x' = x*cos - z*sin`, `z' = x*sin + z*cos` with the angle
`rotSpeed = speed * 0.0002`; the y component is untouched. -/
noncomputable def rotateStarPoint (speed : ℝ) (p : ℝ × ℝ × ℝ) : ℝ × ℝ × ℝ :=
  let rotSpeed := speed * 0.0002
  let c := Real.cos rotSpeed
  let s := Real.sin rotSpeed
  (p.1 * c - p.2.2 * s, p.2.1, p.1 * s + p.2.2 * c)

/-- The whole per-frame star pass: the loop applies the same update to
every stored point. -/
noncomputable def rotateStarsPass (speed : ℝ) (ps : List (ℝ × ℝ × ℝ)) :
    List (ℝ × ℝ × ℝ) :=
  ps.map (rotateStarPoint speed)

/-! ### Meteor collection and the expiry pass (animate, lines 351-384)

The source iterates `i` from `meteors.length - 1` down to `0` and, when
`age = timeSec - birth` exceeds `lifetime`, disposes the meteor's
resources and splices index `i` out of the array.  The loop is embedded
index-faithfully: `cullLoop timeSec (i+1) ms` processes index `i` (the
highest still unprocessed one) and recurses downward, splicing with
`take i ++ drop (i+1)` exactly as `splice(i, 1)` does.  The arithmetic
is generic over a linear ordered field so the same definition serves
exact-rational evaluation and the real-number theorems. -/

/-- Bookkeeping entry of the `meteors` array (three-canvas.ts lines
52-56): birth time and lifetime in seconds. -/
structure Meteor (α : Type) where
  birth : α
  lifetime : α
deriving DecidableEq

/-- Reverse-order expiry loop of `animate`: the argument `i + 1` means
indices `i, i-1, ..., 0` remain to be processed; an expired entry is
spliced out of the list before the loop continues downward. -/
def cullLoop [LinearOrderedField α] (timeSec : α) :
    ℕ → List (Meteor α) → List (Meteor α)
  | 0, ms => ms
  | i + 1, ms =>
    match ms[i]? with
    | none => cullLoop timeSec i ms
    | some m =>
      if timeSec - m.birth > m.lifetime then
        cullLoop timeSec i (ms.take i ++ ms.drop (i + 1))
      else
        cullLoop timeSec i ms

/-- The full expiry pass: run the reverse loop starting at the last
index, as `for (let i = meteors.length - 1; i >= 0; i--)` does. -/
def cullMeteors [LinearOrderedField α] (timeSec : α)
    (ms : List (Meteor α)) : List (Meteor α) :=
  cullLoop timeSec ms.length ms

/-! ### Meteor spawn scheduler (animate lines 345-349, fields 58-61)

State fields `lastMeteorSpawn` (initially `0`) and `nextMeteorDelay`
(initially `0.35`); the public `spawnDelay` defaults to `0.3`.  A frame
with effective time `timeSec` spawns a meteor exactly when
`timeSec - lastMeteorSpawn > nextMeteorDelay`; it then sets
`lastMeteorSpawn := timeSec` and redraws
`nextMeteorDelay := spawnDelay * U(0.8, 1.2)` — the jitter draw is an
explicit argument here, so "zero jitter" is `jitter = 1`. -/

/-- Spawn-scheduler fields of the component, plus the list of spawn
times produced so far (a spawn event appends the current time). -/
structure SpawnState where
  lastMeteorSpawn : ℚ
  nextMeteorDelay : ℚ
  spawnTimes : List ℚ
deriving DecidableEq

/-- Initial scheduler state of the component
(`lastMeteorSpawn = 0`, `nextMeteorDelay = 0.35`). -/
def initialSpawnState : SpawnState :=
  { lastMeteorSpawn := 0, nextMeteorDelay := 0.35, spawnTimes := [] }

/-- One frame's spawn check (animate lines 345-349). -/
def spawnCheck (spawnDelay jitter timeSec : ℚ) (s : SpawnState) :
    SpawnState :=
  if timeSec - s.lastMeteorSpawn > s.nextMeteorDelay then
    { lastMeteorSpawn := timeSec
      nextMeteorDelay := spawnDelay * jitter
      spawnTimes := s.spawnTimes ++ [timeSec] }
  else s

/-- Run the spawn check over a schedule of frame times, starting from
the component's initial scheduler state. -/
def simulateSpawns (spawnDelay jitter : ℚ) (frames : List ℚ) :
    SpawnState :=
  frames.foldl (fun a t => spawnCheck spawnDelay jitter t a) initialSpawnState

/-- A fine frame schedule for the C5 scenario: effective time `0` to
`1.2` s sampled every `0.05` s. -/
def framesC5 : List ℚ :=
  [0, 0.05, 0.1, 0.15, 0.2, 0.25, 0.3, 0.35, 0.4, 0.45, 0.5, 0.55, 0.6,
   0.65, 0.7, 0.75, 0.8, 0.85, 0.9, 0.95, 1, 1.05, 1.1, 1.15, 1.2]

/-! ### Star-field regeneration event order (createStars, lines 125-155) -/

/-- Scene/GPU operations performed by `createStars`, in execution
order. -/
inductive FieldEvent
  | removeOldFromScene
  | disposeOldGeometry
  | buildNewGeometry
  | installNewInScene
deriving DecidableEq, BEq

/-- Event trace of one `createStars` call: when a previous field exists
it is removed from the scene and its geometry disposed (lines 128-133)
before the new geometry is built (lines 135-151) and the new points
object is installed into the scene (lines 153-154). -/
def createStarsEvents (hasExisting : Bool) : List FieldEvent :=
  (if hasExisting then
    [FieldEvent.removeOldFromScene, FieldEvent.disposeOldGeometry]
  else []) ++
  [FieldEvent.buildNewGeometry, FieldEvent.installNewInScene]

/-! ### Density update (updateDensity lines 407-411, createStars 125-126)

JS numbers that may be `NaN` are modelled as `Option ℚ` with `none` for
`NaN`; `Math.min`/`Math.max` propagate `NaN`.  A string argument is
represented by its `parseInt(v, 10)` result (`none` for a non-numeric
string, whose parse is `NaN`).  When the resulting density is `NaN`,
`createStars` runs with `count = NaN`: `Math.floor/min/max` keep `NaN`,
`new Float32Array(NaN * 3)` has length `0` (`ToIndex(NaN) = 0`) and the
fill loop `i < NaN` never iterates, so the regenerated field has `0`
points and no exception is thrown. -/

/-- A JS number; `none` models `NaN`. -/
abbrev JsNum := Option ℚ

/-- The `Math.min` of two JS numbers (`NaN` propagates). -/
def jsMin (a b : JsNum) : JsNum :=
  match a, b with
  | some x, some y => some (min x y)
  | _, _ => none

/-- The `Math.max` of two JS numbers (`NaN` propagates). -/
def jsMax (a b : JsNum) : JsNum :=
  match a, b with
  | some x, some y => some (max x y)
  | _, _ => none

/-- Argument of `updateDensity`: a number, or a string represented by
its `parseInt` result (`none` for a non-numeric string). -/
inductive DensityInput
  | num (q : ℚ)
  | str (p : Option ℤ)

/-- The numeric value `nv` computed by `updateDensity`
(`typeof v === 'string' ? parseInt(v, 10) : v`). -/
def parsedValue : DensityInput → JsNum
  | .num q => some q
  | .str p => p.map fun n => (n : ℚ)

/-- Number of points `createStars(count)` actually produces:
`Math.max(0, Math.min(20000, Math.floor(count)))`, with the `NaN` flow
degenerating to an empty field. -/
def safeCountJs : JsNum → ℕ
  | none => 0
  | some q => (max 0 (min 20000 ⌊q⌋)).toNat

/-- Result of an `updateDensity` call: the stored `density` field and
the size of the regenerated star field. -/
structure DensityUpdate where
  density : JsNum
  starCount : ℕ
deriving DecidableEq

/-- Embedding of `updateDensity`: clamp the parsed value with
`Math.max(0, Math.min(20000, nv))`, store it, and regenerate the field
with that count. -/
def updateDensity (v : DensityInput) : DensityUpdate :=
  let nv := parsedValue v
  let d := jsMax (some 0) (jsMin (some 20000) nv)
  { density := d, starCount := safeCountJs d }

/-! ### Resize handler (onResize, lines 391-400) -/

/-- Simulation-relevant component state carried across a resize: clock
fields, control parameters, the meteor collection, star positions,
celestial body poses, and the camera/renderer surface parameters. -/
structure SimState where
  startTime : ℝ
  pausedTime : ℝ
  paused : Bool
  speed : ℝ
  density : ℝ
  spawnDelay : ℝ
  meteors : List (Meteor ℝ)
  starPositions : List (ℝ × ℝ × ℝ)
  earthRotationX : ℝ
  earthRotationY : ℝ
  earthPositionY : ℝ
  moonRotationY : ℝ
  moonPosition : ℝ × ℝ × ℝ
  cameraAspect : ℝ
  rendererPixelScale : ℝ
  rendererWidth : ℝ
  rendererHeight : ℝ

/-- Embedding of `onResize`: set `camera.aspect = w / h`, reclamp the
pixel-density scale to `min(devicePixelRatio || 1, 2)` and resize the
render surface; nothing else is touched. -/
noncomputable def onResize (w h dpr : ℝ) (s : SimState) : SimState :=
  { s with cameraAspect := w / h
           rendererPixelScale := min (if dpr = 0 then 1 else dpr) 2
           rendererWidth := w
           rendererHeight := h }

/-! ### Star-field generator (createStars, lines 125-155) -/

/-- One generated star: Cartesian position and the per-point twinkle
seed written to the `aSeed` attribute. -/
structure Star where
  x : ℝ
  y : ℝ
  z : ℝ
  seed : ℝ

/-- The star built by one iteration of the `createStars` loop (lines
139-148) from four consecutive `Math.random()` draws:
`theta = u1 * π * 2`, `phi = acos(2 * u2 - 1)`,
`radius = 100 + u3 * 400`, spherical-to-Cartesian conversion, and
`seed = u4`. -/
noncomputable def starOfDraws (u1 u2 u3 u4 : ℝ) : Star :=
  let theta := u1 * Real.pi * 2
  let phi := Real.arccos (2 * u2 - 1)
  let radius := 100 + u3 * 400
  { x := radius * Real.sin phi * Real.cos theta
    y := radius * Real.sin phi * Real.sin theta
    z := radius * Real.cos phi
    seed := u4 }

/-- The clamped point count of `createStars` (line 126):
`Math.max(0, Math.min(20000, Math.floor(count)))`. -/
noncomputable def safeCount (count : ℝ) : ℕ :=
  (max 0 (min 20000 ⌊count⌋)).toNat

/-- Embedding of `createStars`: produce `safeCount count` stars, the
`i`-th consuming the four random draws `rng (4i), …, rng (4i+3)`. -/
noncomputable def createStars (count : ℝ) (rng : ℕ → ℝ) : List Star :=
  (List.range (safeCount count)).map fun i =>
    starOfDraws (rng (4 * i)) (rng (4 * i + 1)) (rng (4 * i + 2))
      (rng (4 * i + 3))

/-! ### Moon orbit (animate, lines 321-325) -/

/-- Closed-form moon position written on every non-paused frame:
`t = effectiveTime * 0.3` and
`position = (cos(t) * 50, sin(t * 0.6) * 6, sin(t) * 10)`. -/
noncomputable def moonPositionUpdate (effectiveTime : ℝ) : ℝ × ℝ × ℝ :=
  let t := effectiveTime * 0.3
  (Real.cos t * 50, Real.sin (t * 0.6) * 6, Real.sin t * 10)

/-! ### Theorems -/

/-- Helper for C5: invariant of the spawn loop with `spawnDelay = 0.3`
and zero jitter — the redrawn delay is always at least `0.3`, the `k`-th
spawn happens strictly later than `0.3 * k`, and the last spawn time is
a frame time, hence at most the horizon `T`. -/
theorem spawnLoop_bound (T : ℚ) :
    ∀ (frames : List ℚ) (s : SpawnState), (∀ t ∈ frames, t ≤ T) →
      (0.3 ≤ s.nextMeteorDelay ∧
        0.3 * (s.spawnTimes.length : ℚ) ≤ s.lastMeteorSpawn ∧
        (s.spawnTimes ≠ [] →
          0.3 * (s.spawnTimes.length : ℚ) < s.lastMeteorSpawn) ∧
        s.lastMeteorSpawn ≤ T) →
      0.3 ≤ (frames.foldl (fun a t => spawnCheck 0.3 1 t a)
          s).nextMeteorDelay ∧
      0.3 * (((frames.foldl (fun a t => spawnCheck 0.3 1 t a)
          s).spawnTimes.length : ℚ)) ≤
        (frames.foldl (fun a t => spawnCheck 0.3 1 t a)
          s).lastMeteorSpawn ∧
      ((frames.foldl (fun a t => spawnCheck 0.3 1 t a)
          s).spawnTimes ≠ [] →
        0.3 * (((frames.foldl (fun a t => spawnCheck 0.3 1 t a)
            s).spawnTimes.length : ℚ)) <
          (frames.foldl (fun a t => spawnCheck 0.3 1 t a)
            s).lastMeteorSpawn) ∧
      (frames.foldl (fun a t => spawnCheck 0.3 1 t a)
        s).lastMeteorSpawn ≤ T := by
  intro frames
  induction frames with
  | nil => intro s _ hinv; exact hinv
  | cons t rest ih =>
    intro s hT hinv
    obtain ⟨h1, h2, h3, h4⟩ := hinv
    have ht : t ≤ T := hT t (by simp)
    have hrest : ∀ u ∈ rest, u ≤ T := fun u hu => hT u (by simp [hu])
    simp only [List.foldl_cons]
    apply ih _ hrest
    unfold spawnCheck
    by_cases hc : t - s.lastMeteorSpawn > s.nextMeteorDelay
    · rw [if_pos hc]
      refine ⟨by norm_num, ?_, ?_, ht⟩
      · simp only [List.length_append, List.length_cons, List.length_nil]
        push_cast
        linarith
      · intro _
        simp only [List.length_append, List.length_cons, List.length_nil]
        push_cast
        linarith
    · rw [if_neg hc]
      exact ⟨h1, h2, h3, h4⟩

/-- Counterexample to C5 as stated: simulating the code's spawn logic
(initial `nextMeteorDelay = 0.35`, strict trigger condition) with
`spawnDelay = 0.3` and zero jitter over effective time `0` to `1.2` s
sampled every `0.05` s yields exactly three spawn events, at
`t = 0.4, 0.75, 1.1` — not four events at `t ≈ 0.3, 0.6, 0.9, 1.2`. -/
theorem spawnScenario_counterexample :
    (simulateSpawns 0.3 1 framesC5).spawnTimes = [0.4, 0.75, 1.1] ∧
    (simulateSpawns 0.3 1 framesC5).spawnTimes.length ≠ 4 := by
  have h : (simulateSpawns 0.3 1 framesC5).spawnTimes =
      [0.4, 0.75, 1.1] := by
    norm_num [simulateSpawns, framesC5, initialSpawnState, spawnCheck]
  refine ⟨h, ?_⟩
  rw [h]
  norm_num

/-- Claim C5 (amended): with the spawn delay base at `0.3` s and zero
jitter, every simulation of the spawn logic over frame times all at most
`1.2` s produces at most three spawn events — each spawn requires
strictly more than the current delay (always at least `0.3`, initially
`0.35`) to elapse since the previous spawn, so a fourth spawn would need
an effective time strictly beyond `1.2` s. -/
theorem spawnScenario_amended (frames : List ℚ)
    (hT : ∀ t ∈ frames, t ≤ 1.2) :
    (simulateSpawns 0.3 1 frames).spawnTimes.length ≤ 3 := by
  have h := spawnLoop_bound 1.2 frames initialSpawnState hT
    ⟨by norm_num [initialSpawnState], by norm_num [initialSpawnState],
      by simp [initialSpawnState], by norm_num [initialSpawnState]⟩
  rw [show (frames.foldl (fun a t => spawnCheck 0.3 1 t a)
      initialSpawnState) = simulateSpawns 0.3 1 frames from rfl] at h
  by_contra hlen
  push_neg at hlen
  have hne : (simulateSpawns 0.3 1 frames).spawnTimes ≠ [] := by
    intro h0
    rw [h0] at hlen
    simp at hlen
  have hstrict := h.2.2.1 hne
  have hle := h.2.2.2
  have hcast : (4 : ℚ) ≤
      ((simulateSpawns 0.3 1 frames).spawnTimes.length : ℚ) := by
    exact_mod_cast hlen
  nlinarith

/-- Witness for the amended C5 on a small schedule within the horizon. -/
theorem spawnScenario_amended_witness :
    (∀ t ∈ ([0.5, 1] : List ℚ), t ≤ (1.2 : ℚ)) ∧
    (simulateSpawns 0.3 1 [0.5, 1]).spawnTimes.length ≤ 3 :=
  ⟨by norm_num, spawnScenario_amended [0.5, 1] (by norm_num)⟩

/-- Helper for C3: the index-faithful reverse loop with splicing is
extensionally the order-preserving filter keeping exactly the
non-expired meteors — removal never skips or corrupts other entries. -/
theorem cullLoop_eq_filter [LinearOrderedField α] (timeSec : α) :
    ∀ (i : ℕ) (ms : List (Meteor α)), i ≤ ms.length →
      cullLoop timeSec i ms =
        (ms.take i).filter (fun m => timeSec - m.birth ≤ m.lifetime) ++
          ms.drop i := by
  intro i
  induction i with
  | zero => intro ms _; simp [cullLoop]
  | succ i ih =>
    intro ms hlen
    have hi : i < ms.length := by omega
    have hget : ms[i]? = some ms[i] := List.getElem?_eq_getElem hi
    have htake : (ms.take i).length = i := by
      simp [List.length_take]; omega
    have htk : (ms.take i ++ ms.drop (i + 1)).take i = ms.take i := by
      have h := List.take_left (ms.take i) (ms.drop (i + 1))
      rwa [htake] at h
    have hdp : (ms.take i ++ ms.drop (i + 1)).drop i = ms.drop (i + 1) := by
      have h := List.drop_left (ms.take i) (ms.drop (i + 1))
      rwa [htake] at h
    have hsucc : ms.take (i + 1) = ms.take i ++ [ms[i]] := by
      rw [List.take_succ, hget]; rfl
    have hdropc : ms.drop i = ms[i] :: ms.drop (i + 1) :=
      List.drop_eq_getElem_cons hi
    by_cases hexp : timeSec - (ms[i]).birth > (ms[i]).lifetime
    · have hstep : cullLoop timeSec (i + 1) ms =
          cullLoop timeSec i (ms.take i ++ ms.drop (i + 1)) := by
        simp only [cullLoop, hget]
        rw [if_pos hexp]
      rw [hstep]
      have hlen2 : i ≤ (ms.take i ++ ms.drop (i + 1)).length := by
        rw [List.length_append, htake, List.length_drop]
        omega
      rw [ih _ hlen2, htk, hdp, hsucc]
      rw [List.filter_append]
      have hone : List.filter
          (fun m => decide (timeSec - m.birth ≤ m.lifetime)) [ms[i]] = [] := by
        have hdec : decide (timeSec - (ms[i] : Meteor α).birth ≤
            (ms[i] : Meteor α).lifetime) = false :=
          decide_eq_false (not_le.mpr hexp)
        simp only [List.filter_cons, List.filter_nil, hdec,
          Bool.false_eq_true, if_false]
      rw [hone, List.append_nil]
    · have hstep : cullLoop timeSec (i + 1) ms = cullLoop timeSec i ms := by
        simp only [cullLoop, hget]
        rw [if_neg hexp]
      rw [hstep, ih _ hi.le, hsucc, List.filter_append, hdropc]
      have hone : List.filter
          (fun m => decide (timeSec - m.birth ≤ m.lifetime)) [ms[i]] =
          [ms[i]] := by
        have hdec : decide (timeSec - (ms[i] : Meteor α).birth ≤
            (ms[i] : Meteor α).lifetime) = true :=
          decide_eq_true (not_lt.mp hexp)
        simp only [List.filter_cons, List.filter_nil, hdec, if_true]
      rw [hone]
      simp

/-- Claim C3: after the expiry pass at time `timeSec`, the meteor
collection equals the order-preserving filter of the input keeping
exactly the entries with `age = timeSec - birth ≤ lifetime`; hence
(given every meteor was born no later than `timeSec`) every remaining
meteor satisfies `0 ≤ age ≤ lifetime`, every expired meteor is removed
in that same pass, and the reverse-order removal never skips or corrupts
the remaining entries. -/
theorem cullMeteors_spec [LinearOrderedField α] (timeSec : α)
    (ms : List (Meteor α)) (hborn : ∀ m ∈ ms, m.birth ≤ timeSec) :
    cullMeteors timeSec ms =
      ms.filter (fun m => timeSec - m.birth ≤ m.lifetime) ∧
    (∀ m ∈ cullMeteors timeSec ms,
      0 ≤ timeSec - m.birth ∧ timeSec - m.birth ≤ m.lifetime) ∧
    (∀ m ∈ ms, m.lifetime < timeSec - m.birth →
      m ∉ cullMeteors timeSec ms) := by
  have he : cullMeteors timeSec ms =
      ms.filter (fun m => timeSec - m.birth ≤ m.lifetime) := by
    unfold cullMeteors
    rw [cullLoop_eq_filter timeSec ms.length ms le_rfl]
    simp
  refine ⟨he, ?_, ?_⟩
  · intro m hm
    rw [he] at hm
    have hmem := List.mem_filter.mp hm
    have h1 := hborn m hmem.1
    have h2 : timeSec - m.birth ≤ m.lifetime := by
      simpa using hmem.2
    exact ⟨by linarith, h2⟩
  · intro m _ hexp hm
    rw [he] at hm
    have hmem := List.mem_filter.mp hm
    have h2 : timeSec - m.birth ≤ m.lifetime := by
      simpa using hmem.2
    linarith

/-- Witness for C3 at `timeSec = 5` over `ℚ` with three meteors of ages
`5, 1, 4` and lifetimes `2, 3, 2`: the first and third are expired. -/
theorem cullMeteors_spec_witness :
    (∀ m ∈ ([⟨0, 2⟩, ⟨4, 3⟩, ⟨1, 2⟩] : List (Meteor ℚ)),
      m.birth ≤ (5 : ℚ)) ∧
    (cullMeteors (5 : ℚ) [⟨0, 2⟩, ⟨4, 3⟩, ⟨1, 2⟩] =
      List.filter (fun m => (5 : ℚ) - m.birth ≤ m.lifetime)
        [⟨0, 2⟩, ⟨4, 3⟩, ⟨1, 2⟩] ∧
    (∀ m ∈ cullMeteors (5 : ℚ) [⟨0, 2⟩, ⟨4, 3⟩, ⟨1, 2⟩],
      0 ≤ (5 : ℚ) - m.birth ∧ (5 : ℚ) - m.birth ≤ m.lifetime) ∧
    (∀ m ∈ ([⟨0, 2⟩, ⟨4, 3⟩, ⟨1, 2⟩] : List (Meteor ℚ)),
      m.lifetime < (5 : ℚ) - m.birth →
      m ∉ cullMeteors (5 : ℚ) [⟨0, 2⟩, ⟨4, 3⟩, ⟨1, 2⟩])) :=
  ⟨by decide, cullMeteors_spec 5 [⟨0, 2⟩, ⟨4, 3⟩, ⟨1, 2⟩] (by decide)⟩

/-- Claim C2: pause/resume round-trip.  For any clock state, a single
`togglePause` at instant `now` leaves `effectiveTime` (evaluated at that
same instant) unchanged, and so does a pause/resume (or resume/pause)
round-trip of two `togglePause` calls with no wall-clock time passing:
elapsed simulation time never jumps or resets across a pause/resume
cycle. -/
theorem togglePause_roundTrip (now : ℝ) (s : ClockState) :
    effectiveTime now (togglePause now s) = effectiveTime now s ∧
    effectiveTime now (togglePause now (togglePause now s)) =
      effectiveTime now s := by
  cases hp : s.paused
  all_goals
    simp [togglePause, effectiveTime, hp]
    ring_nf
    try norm_num

/-- Claim C4: the opacity written to `uOpacity` equals
`1 - min(1, age/lifetime)` where `age = timeSec - birth`; for fixed
`lifetime > 0` it is monotonically non-increasing in the age, and it is
exactly `0` when the age equals the lifetime. -/
theorem writtenOpacity_spec (birth lifetime : ℝ) (hL : 0 < lifetime) :
    (∀ timeSec, writtenOpacity timeSec birth lifetime =
      1 - min 1 ((timeSec - birth) / lifetime)) ∧
    (∀ t1 t2, t1 ≤ t2 →
      writtenOpacity t2 birth lifetime ≤ writtenOpacity t1 birth lifetime) ∧
    writtenOpacity (birth + lifetime) birth lifetime = 0 := by
  refine ⟨fun timeSec => rfl, ?_, ?_⟩
  · intro t1 t2 h12
    have hdiv : (t1 - birth) / lifetime ≤ (t2 - birth) / lifetime :=
      div_le_div_of_nonneg_right (by linarith) hL.le
    have hmin : min 1 ((t1 - birth) / lifetime) ≤
        min 1 ((t2 - birth) / lifetime) :=
      min_le_min le_rfl hdiv
    simp only [writtenOpacity]
    linarith
  · simp only [writtenOpacity]
    rw [add_sub_cancel_left, div_self hL.ne']
    norm_num

/-- Witness for C4 at `birth = 0`, `lifetime = 2`. -/
theorem writtenOpacity_spec_witness :
    (0 : ℝ) < 2 ∧
    ((∀ timeSec, writtenOpacity timeSec 0 2 =
        1 - min 1 ((timeSec - 0) / 2)) ∧
      (∀ t1 t2, t1 ≤ t2 →
        writtenOpacity t2 0 2 ≤ writtenOpacity t1 0 2) ∧
      writtenOpacity (0 + 2) 0 2 = 0) :=
  ⟨by norm_num, writtenOpacity_spec 0 2 (by norm_num)⟩

/-- Claim C10: the per-frame star rotation step is a rotation about the
Y axis by `speed * 0.0002`: it preserves each point's `y` coordinate,
its squared distance `x^2 + z^2` from the Y axis, and hence its squared
distance from the origin, so the radius band established at generation
is invariant under every non-paused frame; and the pass applies exactly
this step to every stored point. -/
theorem rotateStar_preserves (speed x y z : ℝ) :
    (rotateStarPoint speed (x, y, z)).2.1 = y ∧
    (rotateStarPoint speed (x, y, z)).1 ^ 2 +
      (rotateStarPoint speed (x, y, z)).2.2 ^ 2 = x ^ 2 + z ^ 2 ∧
    (rotateStarPoint speed (x, y, z)).1 ^ 2 +
      (rotateStarPoint speed (x, y, z)).2.1 ^ 2 +
      (rotateStarPoint speed (x, y, z)).2.2 ^ 2 =
      x ^ 2 + y ^ 2 + z ^ 2 ∧
    ∀ ps : List (ℝ × ℝ × ℝ), ∀ q ∈ rotateStarsPass speed ps,
      ∃ p ∈ ps, q = rotateStarPoint speed p := by
  have hsc : Real.sin (speed * 0.0002) ^ 2 +
      Real.cos (speed * 0.0002) ^ 2 = 1 :=
    Real.sin_sq_add_cos_sq _
  refine ⟨rfl, ?_, ?_, ?_⟩
  · simp only [rotateStarPoint]
    linear_combination (x ^ 2 + z ^ 2) * hsc
  · simp only [rotateStarPoint]
    linear_combination (x ^ 2 + z ^ 2) * hsc
  · intro ps q hq
    rcases List.mem_map.mp hq with ⟨p, hp, rfl⟩
    exact ⟨p, hp, rfl⟩

/-- Counterexample to C7 as stated: in the trace of a `createStars`
call that replaces an existing field, both the dispose of the old
geometry and the install of the new field occur, but the install does
not precede the dispose — `createStars` disposes the old field first
(lines 128-133) and only then builds and installs the new one. -/
theorem createStars_order_counterexample :
    createStarsEvents true =
      [FieldEvent.removeOldFromScene, FieldEvent.disposeOldGeometry,
        FieldEvent.buildNewGeometry, FieldEvent.installNewInScene] ∧
    ¬ (createStarsEvents true).indexOf FieldEvent.installNewInScene <
        (createStarsEvents true).indexOf FieldEvent.disposeOldGeometry := by
  refine ⟨by decide, by decide⟩

/-- Claim C7 (amended): during a `createStars` call that replaces an
existing field, the old field's geometry is released exactly once and
strictly before the new field is built and installed in the scene (the
whole replacement happens within one synchronous call); when no field
exists yet, nothing is disposed. -/
theorem createStars_order_amended :
    (createStarsEvents true).indexOf FieldEvent.disposeOldGeometry <
      (createStarsEvents true).indexOf FieldEvent.buildNewGeometry ∧
    (createStarsEvents true).indexOf FieldEvent.disposeOldGeometry <
      (createStarsEvents true).indexOf FieldEvent.installNewInScene ∧
    (createStarsEvents true).count FieldEvent.disposeOldGeometry = 1 ∧
    (createStarsEvents true).count FieldEvent.installNewInScene = 1 ∧
    (createStarsEvents false).count FieldEvent.disposeOldGeometry = 0 := by
  refine ⟨by decide, by decide, by decide, by decide, by decide⟩

/-- Counterexample to C8 as stated: for the non-numeric string input
(whose `parseInt` is `NaN`), `updateDensity` stores `NaN` as the
density — not an integer clamped into `[0, 20000]`. -/
theorem updateDensity_counterexample :
    (updateDensity (.str none)).density = none ∧
    ¬ ∃ n : ℤ, (updateDensity (.str none)).density = some (n : ℚ) ∧
        0 ≤ n ∧ n ≤ 20000 := by
  refine ⟨rfl, ?_⟩
  rintro ⟨n, hsome, -, -⟩
  simp [updateDensity, parsedValue, jsMin, jsMax] at hsome

/-- Claim C8 (amended): no input is rejected with an error, and: a
numeric string parses to an integer that is clamped into `[0, 20000]`
and becomes exactly the regenerated star count; a numeric input is
clamped into `[0, 20000]` (kept fractional if fractional) and the field
is regenerated with the clamp of its floor; a non-numeric string makes
the density `NaN` and regenerates the field with `0` points. -/
theorem updateDensity_amended :
    (∀ n : ℤ, (updateDensity (.str (some n))).density =
        some ((max 0 (min 20000 n) : ℤ) : ℚ) ∧
      (updateDensity (.str (some n))).starCount =
        (max 0 (min 20000 n)).toNat) ∧
    (∀ q : ℚ, (updateDensity (.num q)).density =
        some (max 0 (min 20000 q)) ∧
      (updateDensity (.num q)).starCount =
        (max 0 (min 20000 ⌊q⌋)).toNat) ∧
    (updateDensity (.str none)).density = none ∧
    (updateDensity (.str none)).starCount = 0 := by
  refine ⟨?_, ?_, rfl, rfl⟩
  · intro n
    have hcast : ((max 0 (min 20000 n) : ℤ) : ℚ) =
        max 0 (min 20000 (n : ℚ)) := by
      push_cast
      rfl
    constructor
    · show some (max 0 (min 20000 (n : ℚ))) = _
      rw [hcast]
    · show (max 0 (min 20000 ⌊max 0 (min 20000 (n : ℚ))⌋)).toNat = _
      rw [← hcast, Int.floor_intCast]
      omega
  · intro q
    refine ⟨rfl, ?_⟩
    show (max 0 (min 20000 ⌊max 0 (min 20000 q)⌋)).toNat = _
    congr 1
    rcases le_total q 0 with hq0 | hq0
    · have hmin : min 20000 q = q := min_eq_right (by linarith)
      have hmax : max 0 q = 0 := max_eq_left hq0
      have hfq : ⌊q⌋ ≤ 0 := by
        have h := Int.floor_le_floor (α := ℚ) hq0
        simpa using h
      rw [hmin, hmax, Int.floor_zero]
      omega
    · rcases le_total 20000 q with hq2 | hq2
      · have hmin : min 20000 q = 20000 := min_eq_left hq2
        have hfq : 20000 ≤ ⌊q⌋ := by
          rw [Int.le_floor]
          exact_mod_cast hq2
        have hf20000 : ⌊(20000 : ℚ)⌋ = (20000 : ℤ) := by norm_num
        rw [hmin, show max (0 : ℚ) 20000 = 20000 from by norm_num, hf20000]
        omega
      · have hmin : min 20000 q = q := min_eq_right hq2
        have hmax : max 0 q = q := max_eq_right hq0
        rw [hmin, hmax]

/-- Claim C9: a resize to container dimensions `(w, h)` sets the camera
aspect ratio to exactly `w / h` (and reclamps the pixel scale and the
surface size) while leaving every other piece of simulation state —
clock fields, speed, density, spawn delay, the meteor collection, star
positions, and celestial body poses — unchanged. -/
theorem onResize_spec (w h dpr : ℝ) (s : SimState) :
    (onResize w h dpr s).cameraAspect = w / h ∧
    (onResize w h dpr s).startTime = s.startTime ∧
    (onResize w h dpr s).pausedTime = s.pausedTime ∧
    (onResize w h dpr s).paused = s.paused ∧
    (onResize w h dpr s).speed = s.speed ∧
    (onResize w h dpr s).density = s.density ∧
    (onResize w h dpr s).spawnDelay = s.spawnDelay ∧
    (onResize w h dpr s).meteors = s.meteors ∧
    (onResize w h dpr s).starPositions = s.starPositions ∧
    (onResize w h dpr s).earthRotationX = s.earthRotationX ∧
    (onResize w h dpr s).earthRotationY = s.earthRotationY ∧
    (onResize w h dpr s).earthPositionY = s.earthPositionY ∧
    (onResize w h dpr s).moonRotationY = s.moonRotationY ∧
    (onResize w h dpr s).moonPosition = s.moonPosition :=
  ⟨rfl, rfl, rfl, rfl, rfl, rfl, rfl, rfl, rfl, rfl, rfl, rfl, rfl, rfl⟩

/-- Claim C1: for every integer `count` in `[0, 20000]` and any random
stream with draws in `[0, 1)`, `createStars` produces exactly `count`
stars, each with seed in `[0, 1)` and position magnitude in the
configured radius band `[100, 500]`. -/
theorem createStars_spec (count : ℤ) (rng : ℕ → ℝ)
    (hc1 : 0 ≤ count) (hc2 : count ≤ 20000)
    (hrng : ∀ n, 0 ≤ rng n ∧ rng n < 1) :
    (createStars (count : ℝ) rng).length = count.toNat ∧
    ∀ s ∈ createStars (count : ℝ) rng,
      (0 ≤ s.seed ∧ s.seed < 1) ∧
      100 ≤ Real.sqrt (s.x ^ 2 + s.y ^ 2 + s.z ^ 2) ∧
      Real.sqrt (s.x ^ 2 + s.y ^ 2 + s.z ^ 2) ≤ 500 := by
  have hsafe : safeCount (count : ℝ) = count.toNat := by
    unfold safeCount
    rw [Int.floor_intCast]
    omega
  constructor
  · simp [createStars, hsafe]
  · intro s hs
    simp only [createStars, List.mem_map, List.mem_range] at hs
    obtain ⟨i, _, rfl⟩ := hs
    have hu3 := hrng (4 * i + 2)
    have hu4 := hrng (4 * i + 3)
    have hr100 : (100 : ℝ) ≤ 100 + rng (4 * i + 2) * 400 := by
      nlinarith [hu3.1]
    have hr500 : 100 + rng (4 * i + 2) * 400 ≤ 500 := by
      nlinarith [hu3.2]
    have hr0 : (0 : ℝ) ≤ 100 + rng (4 * i + 2) * 400 := by linarith
    have hsq : (starOfDraws (rng (4 * i)) (rng (4 * i + 1)) (rng (4 * i + 2))
          (rng (4 * i + 3))).x ^ 2 +
        (starOfDraws (rng (4 * i)) (rng (4 * i + 1)) (rng (4 * i + 2))
          (rng (4 * i + 3))).y ^ 2 +
        (starOfDraws (rng (4 * i)) (rng (4 * i + 1)) (rng (4 * i + 2))
          (rng (4 * i + 3))).z ^ 2 =
        (100 + rng (4 * i + 2) * 400) ^ 2 := by
      have h1 := Real.sin_sq_add_cos_sq (rng (4 * i) * Real.pi * 2)
      have h2 := Real.sin_sq_add_cos_sq
        (Real.arccos (2 * rng (4 * i + 1) - 1))
      simp only [starOfDraws]
      linear_combination
        ((100 + rng (4 * i + 2) * 400) ^ 2 *
          Real.sin (Real.arccos (2 * rng (4 * i + 1) - 1)) ^ 2) * h1 +
        (100 + rng (4 * i + 2) * 400) ^ 2 * h2
    have hmag : Real.sqrt
        ((starOfDraws (rng (4 * i)) (rng (4 * i + 1)) (rng (4 * i + 2))
            (rng (4 * i + 3))).x ^ 2 +
          (starOfDraws (rng (4 * i)) (rng (4 * i + 1)) (rng (4 * i + 2))
            (rng (4 * i + 3))).y ^ 2 +
          (starOfDraws (rng (4 * i)) (rng (4 * i + 1)) (rng (4 * i + 2))
            (rng (4 * i + 3))).z ^ 2) =
        100 + rng (4 * i + 2) * 400 := by
      rw [hsq]
      exact Real.sqrt_sq hr0
    exact ⟨⟨hu4.1, hu4.2⟩, by rw [hmag]; exact hr100, by rw [hmag]; exact hr500⟩

/-- Witness for C1 at `count = 2` with the constant stream `1/2`. -/
theorem createStars_spec_witness :
    (0 ≤ (2 : ℤ) ∧ (2 : ℤ) ≤ 20000 ∧
      ∀ n : ℕ, 0 ≤ (fun _ : ℕ => (1 : ℝ) / 2) n ∧
        (fun _ : ℕ => (1 : ℝ) / 2) n < 1) ∧
    ((createStars ((2 : ℤ) : ℝ) (fun _ => (1 : ℝ) / 2)).length =
        (2 : ℤ).toNat ∧
      ∀ s ∈ createStars ((2 : ℤ) : ℝ) (fun _ => (1 : ℝ) / 2),
        (0 ≤ s.seed ∧ s.seed < 1) ∧
        100 ≤ Real.sqrt (s.x ^ 2 + s.y ^ 2 + s.z ^ 2) ∧
        Real.sqrt (s.x ^ 2 + s.y ^ 2 + s.z ^ 2) ≤ 500) :=
  ⟨⟨by norm_num, by norm_num, fun n => by norm_num⟩,
    createStars_spec 2 (fun _ => (1 : ℝ) / 2) (by norm_num) (by norm_num)
      (fun n => by norm_num)⟩

/-- Counterexample to C6 as stated: there is no orbital rate, shared
radius `R` and vertical amplitude such that the moon position written
each frame equals `(cos(t) * R, sin(0.6 t) * h, sin(t) * R)` with
`t = elapsed * rate` for all elapsed times — the code's X radius is `50`
but its Z radius is `10` (evaluate at elapsed `0` and `5π/3`). -/
theorem moonOrbit_counterexample :
    ¬ ∃ rate R hAmp : ℝ, ∀ e : ℝ,
        moonPositionUpdate e =
          (Real.cos (e * rate) * R, Real.sin (e * rate * 0.6) * hAmp,
            Real.sin (e * rate) * R) := by
  rintro ⟨rate, R, hAmp, H⟩
  have h0 := H 0
  have harg : (5 * Real.pi / 3) * (0.3 : ℝ) = Real.pi / 2 := by
    rw [show (0.3 : ℝ) = 3 / 10 by norm_num]
    ring
  have he := H (5 * Real.pi / 3)
  simp only [moonPositionUpdate, Prod.mk.injEq, zero_mul,
    Real.cos_zero, Real.sin_zero, one_mul, zero_mul] at h0
  have hR : R = 50 := by
    have h01 := h0.1
    norm_num at h01
    linarith
  simp only [moonPositionUpdate, Prod.mk.injEq, harg] at he
  have hcos := he.1
  have hsin := he.2.2
  rw [Real.cos_pi_div_two, hR] at hcos
  rw [Real.sin_pi_div_two, hR] at hsin
  have hc : Real.cos (5 * Real.pi / 3 * rate) = 0 := by
    have h50 : Real.cos (5 * Real.pi / 3 * rate) * 50 = 0 := by
      linarith [hcos]
    linarith
  have hs : Real.sin (5 * Real.pi / 3 * rate) = 1 / 5 := by
    have h50 : Real.sin (5 * Real.pi / 3 * rate) * 50 = 10 := by
      linarith [hsin]
    linarith
  have hpyth := Real.sin_sq_add_cos_sq (5 * Real.pi / 3 * rate)
  rw [hs, hc] at hpyth
  norm_num at hpyth

/-- Claim C6 (amended): on every non-paused frame the moon position is
the closed-form, stateless function of elapsed time
`(cos(t) * 50, sin(0.6 t) * 6, sin(t) * 10)` with
`t = elapsedTime * 0.3` — the X and Z components have the different
radii `50` and `10`, so the ground track is the axis-aligned ellipse
`(x/50)^2 + (z/10)^2 = 1`, and the orbit is exactly reproducible from
`elapsedTime` alone. -/
theorem moonOrbit_amended (e : ℝ) :
    moonPositionUpdate e =
      (Real.cos (e * 0.3) * 50, Real.sin (e * 0.3 * 0.6) * 6,
        Real.sin (e * 0.3) * 10) ∧
    ((moonPositionUpdate e).1 / 50) ^ 2 +
      ((moonPositionUpdate e).2.2 / 10) ^ 2 = 1 := by
  refine ⟨rfl, ?_⟩
  have hpyth := Real.sin_sq_add_cos_sq (e * 0.3)
  simp only [moonPositionUpdate]
  have h1 : Real.cos (e * 0.3) * 50 / 50 = Real.cos (e * 0.3) := by ring
  have h2 : Real.sin (e * 0.3) * 10 / 10 = Real.sin (e * 0.3) := by ring
  rw [h1, h2]
  linarith

end ThreeCanvas
